import Mathlib

/-!
Verification of the swap-transaction analysis code of `web3-ethereum-defi`:
the Uniswap Universal Router trade analyser
(`eth_defi/uniswap_universal/analysis.py`), the v2/v3/universal dispatcher
(`eth_defi/swap/analysis.py`) and the static v3 router table
(`eth_defi/uniswap_v3/constant.py`).

External collaborators (RPC client, ABI codec, event extractor, ERC-20 and
pool metadata fetchers, revert-reason fetcher) are modelled as components of
an environment record `Env`; the analysed code is embedded as total Lean
functions into `Except PyError`, where `PyError` covers the Python exceptions
the code can raise (`ValueError`, `NotImplementedError`, `AssertionError`,
`KeyError`, `IndexError`).
-/

namespace EthDefi

/-- The Python exceptions observable from the analysed code. -/
inductive PyError where
  | valueError (msg : String)
  | notImplementedError (msg : String)
  | assertionError (msg : String)
  | keyError
  | indexError
  deriving DecidableEq, Repr

/-- ERC-20 metadata as consumed by the analyser (`fetch_erc20_details`):
only the `decimals` field is read. -/
structure TokenDetails where
  decimals : Nat
  deriving DecidableEq, Repr

/-- Pool metadata as consumed by the analyser (`fetch_pool_details`):
`token0`, `token1`, `fee`, and the tick-to-price conversion
`convert_price_to_human`. Prices and fee rates are embedded as exact
rationals. -/
structure PoolDetails where
  token0 : String
  token1 : String
  fee : ℚ
  convert_price_to_human : Int → ℚ

/-- A decoded log event as the analyser reads it: name (`event` key),
emitting contract address (`address` key) and the argument dictionary
(`args` key). Argument values the code reads (`amount0`, `amount1`,
`tick`) are signed integers. -/
structure EventData where
  event : String
  address : String
  args : List (String × Int)
  deriving DecidableEq, Repr

/-- Record `eth_defi.trade.TradeSuccess`, with the fields the Universal
Router analyser fills in. `price` and `lp_fee_paid` are embedded as exact
rationals (Python uses `Decimal` resp. `float`). -/
structure TradeSuccess where
  gas_used : Nat
  effective_gas_price : Nat
  path : List String
  amount_in : Int
  amount_out_min : Int
  amount_out : Int
  price : ℚ
  in_token_decimals : Nat
  out_token_decimals : Nat
  token0 : String
  token1 : String
  lp_fee_paid : ℚ
  deriving DecidableEq

/-- Record `eth_defi.trade.TradeFail`: gas fields plus an optional revert
reason. -/
structure TradeFail where
  gas_used : Nat
  effective_gas_price : Nat
  revert_reason : Option String
  deriving DecidableEq, Repr

/-- The tagged outcome of a successful analysis call. -/
inductive TradeResult where
  | success (s : TradeSuccess)
  | fail (f : TradeFail)
  deriving DecidableEq

/-- One decoded Universal Router sub-operation: the pair
`(function, args)` produced by `codec.decode.function_input`.  `fn_name`
is the command name; `args` is the argument dictionary.  Raw `path`
bytes are encoded by an integer handle (the codec that consumes them is
a black box). -/
structure UROp where
  fn_name : String
  args : List (String × Int)
  deriving DecidableEq, Repr

/-- The receipt fields the analysers read: `status`, `gasUsed`, and
`effectiveGasPrice` (read with `.get(..., 0)`, hence optional). -/
structure TxReceipt where
  status : Nat
  gasUsed : Nat
  effectiveGasPrice : Option Nat
  deriving DecidableEq, Repr

/-- The external collaborators of one analysis call, per spec §6:
revert-reason fetcher, Universal Router call-input decoder, v3 path
decoder, event extractor, pool-metadata and ERC-20-metadata fetchers.
`tx_events` is the ordered `(event, args)` pair list returned by
`get_tx_events`. -/
structure Env where
  fetch_transaction_revert_reason : Option String
  decoded_inputs : List UROp
  v3_path : String → Int → List String
  tx_events : List (EventData × List (String × Int))
  fetch_pool_details : String → PoolDetails
  fetch_erc20_details : String → TokenDetails

/-- Python dictionary subscript `d[k]`: `KeyError` when the key is absent. -/
def dictGet (d : List (String × Int)) (k : String) : Except PyError Int :=
  match d.lookup k with
  | some v => Except.ok v
  | none => Except.error PyError.keyError

/-- Python subscript `xs[0]`: `IndexError` on an empty list. -/
def pyHead {α : Type} (xs : List α) : Except PyError α :=
  match xs.head? with
  | some x => Except.ok x
  | none => Except.error PyError.indexError

/-- Python subscript `xs[-1]`: `IndexError` on an empty list. -/
def pyLast {α : Type} (xs : List α) : Except PyError α :=
  match xs.getLast? with
  | some x => Except.ok x
  | none => Except.error PyError.indexError

/-- Python `len` of a 2-tuple, as applied by the second
`assert len(events) > 0` of the analyser after `events` has been rebound
to the selected `(event, args)` pair: always `2`. -/
def pyTupleLen {α β : Type} (_ : α × β) : Nat := 2

/-- Command names `analysis.py` treats as v3 swap operations. -/
def isV3SwapOp (x : UROp) : Bool :=
  x.fn_name == "V3_SWAP_EXACT_IN" || x.fn_name == "V3_SWAP_EXACT_OUT"

/-- Command names `analysis.py` treats as v2 swap operations. -/
def isV2SwapOp (x : UROp) : Bool :=
  x.fn_name == "V2_SWAP_EXACT_IN" || x.fn_name == "V2_SWAP_EXACT_OUT"

/-- Function `eth_defi.uniswap_universal.analysis.get_v3_by_event`. -/
def get_v3_by_event (env : Env) (effective_gas_price gas_used : Nat)
    (path : List String) (amount_out_min : Int) (event : EventData) :
    Except PyError TradeResult := do
  let props := event.args
  let amount0 ← dictGet props "amount0"
  let amount1 ← dictGet props "amount1"
  let tick ← dictGet props "tick"
  let pool_address := event.address
  let pool := env.fetch_pool_details pool_address
  if (amount0 > 0 ∧ amount1 < 0) ∨ (amount0 < 0 ∧ amount1 > 0) then
    let amount_out := if amount0 < 0 then amount0 else amount1
    if amount_out < 0 then do
      let path0 ← pyHead path
      let pathLastTok ← pyLast path
      let in_token_details := env.fetch_erc20_details path0
      let out_token_details := env.fetch_erc20_details pathLastTok
      let price := pool.convert_price_to_human tick
      let amount_in := if amount0 > 0 then amount0 else amount1
      let lp_fee_paid : ℚ := (amount_in : ℚ) * pool.fee / 10 ^ in_token_details.decimals
      Except.ok (TradeResult.success
        { gas_used := gas_used
          effective_gas_price := effective_gas_price
          path := path
          amount_in := amount_in
          amount_out_min := amount_out_min
          amount_out := |amount_out|
          price := price
          in_token_decimals := in_token_details.decimals
          out_token_decimals := out_token_details.decimals
          token0 := pool.token0
          token1 := pool.token1
          lp_fee_paid := lp_fee_paid })
    else Except.error (PyError.assertionError "amount out should be negative for uniswap v3")
  else Except.error (PyError.assertionError "Unsupported swap type")

/-- Function `eth_defi.uniswap_universal.analysis.analyse_trade_by_receipt`. -/
def analyse_trade_by_receipt (env : Env) (tx_receipt : TxReceipt) :
    Except PyError TradeResult := do
  let effective_gas_price := tx_receipt.effectiveGasPrice.getD 0
  let gas_used := tx_receipt.gasUsed
  if tx_receipt.status ≠ 1 then
    Except.ok (TradeResult.fail
      { gas_used := gas_used
        effective_gas_price := effective_gas_price
        revert_reason := env.fetch_transaction_revert_reason })
  else
    let decoded_trx_input := env.decoded_inputs
    let v3_swap_ops := decoded_trx_input.filter isV3SwapOp
    let v2_swap_ops := decoded_trx_input.filter isV2SwapOp
    if v3_swap_ops.length = 0 ∧ v2_swap_ops.length = 0 then
      Except.error (PyError.valueError "No swap operation detected in the transaction")
    else if v3_swap_ops.length + v2_swap_ops.length > 1 then
      Except.error (PyError.valueError "Multiple swap operations detected in the transaction")
    else if v2_swap_ops.length = 1 then
      Except.error (PyError.notImplementedError "Uniswap V2 trades are not supported yet")
    else do
      let v3op0 ← pyHead v3_swap_ops
      let fn_name := v3op0.fn_name
      let input0 ← pyHead decoded_trx_input
      let rawPath ← dictGet input0.args "path"
      let amount_out_min ← dictGet input0.args "amountOutMin"
      let path := env.v3_path fn_name rawPath
      let events := env.tx_events
      if events.length > 0 then do
        let swapEvents := events.filter (fun t => t.1.event == "Swap")
        let selected ← pyLast swapEvents
        if pyTupleLen selected > 0 then
          get_v3_by_event env effective_gas_price gas_used path amount_out_min selected.1
        else Except.error (PyError.assertionError "No swap events detected")
      else Except.error (PyError.assertionError "No swap events detected")

/-- One entry of the static v3 router table of
`eth_defi/uniswap_v3/constant.py`. -/
structure RouterEntry where
  chain : String
  address : String
  name : String
  deriving DecidableEq, Repr

/-- The static v3 router table `dex_router` of
`eth_defi/uniswap_v3/constant.py`, verbatim. -/
def dex_router : List (String × List RouterEntry) :=
  [("base",
    [{ chain := "base"
       address := "0x19ceead7105607cd444f5ad10dd51356436095a1"
       name := "Odos:Router V2" }])]

/-- Function `eth_defi.uniswap_v3.constant.contains_v3_router`: dictionary
subscript on `dex_router` (hence `KeyError` for an unknown chain), then a
linear scan for an exact address match. -/
def contains_v3_router (chain address : String) : Except PyError Bool :=
  match dex_router.lookup chain with
  | some routers => Except.ok (routers.any (fun router => router.address == address))
  | none => Except.error PyError.keyError

/-- Which per-protocol analyser the dispatcher delegated to. -/
inductive DispatchTarget where
  | v2Delegate
  | v3Delegate
  deriving DecidableEq, Repr

/-- Function `eth_defi.swap.analysis.analyse_trade_by_receipt` (the dispatcher),
abstracted over its two table checks that are not part of the analysed
sources.  Modelled from the spec: `contains_v2_router` and
`contains_universal_router` (in `eth_defi.uniswap_v2.constant` and
`eth_defi.uniswap_universal.constant`, missing from the sources) are,
per spec §4.1, static per-chain table membership tests, so they are
passed in as Boolean membership functions.  The v2/v3 delegates are
external modules; delegation is reported as a `DispatchTarget`. -/
def swap_analyse_trade_by_receipt
    (contains_v2_router contains_universal_router : String → String → Bool)
    (chain : String) (router_addr : String) : Except PyError DispatchTarget :=
  if contains_v2_router chain router_addr then
    Except.ok DispatchTarget.v2Delegate
  else
    match contains_v3_router chain router_addr with
    | Except.error e => Except.error e
    | Except.ok b =>
      if b then Except.ok DispatchTarget.v3Delegate
      else if contains_universal_router chain router_addr then
        Except.error (PyError.notImplementedError "Universal router not implemented")
      else
        Except.error (PyError.valueError ("Unknown router " ++ router_addr))

/-- A trivial pool-metadata value, used to build concrete environments. -/
def zeroPool : PoolDetails :=
  { token0 := "T0", token1 := "T1", fee := 0, convert_price_to_human := fun _ => 0 }

/-- A minimal concrete environment: no revert reason, no decoded
operations, no events, trivial metadata fetchers. -/
def sampleEnv : Env :=
  { fetch_transaction_revert_reason := none
    decoded_inputs := []
    v3_path := fun _ _ => []
    tx_events := []
    fetch_pool_details := fun _ => zeroPool
    fetch_erc20_details := fun _ => { decimals := 18 } }

/-- No command name is both a v3 swap kind and a v2 swap kind. -/
lemma isSwapOp_disjoint (x : UROp) : ¬(isV3SwapOp x = true ∧ isV2SwapOp x = true) := by
  simp only [isV3SwapOp, isV2SwapOp, Bool.or_eq_true, beq_iff_eq]
  rintro ⟨h3 | h3, h2 | h2⟩ <;> rw [h3] at h2 <;> exact absurd h2 (by decide)

/-- The two filtered operation lists of the analyser together count
exactly the swap-kind operations of the decoded input list. -/
lemma filter_swap_ops_length (l : List UROp) :
    (l.filter isV3SwapOp).length + (l.filter isV2SwapOp).length =
      l.countP (fun x => isV3SwapOp x || isV2SwapOp x) := by
  induction l with
  | nil => rfl
  | cons x xs ih =>
    cases h3 : isV3SwapOp x <;> cases h2 : isV2SwapOp x
    · simp [List.filter_cons, List.countP_cons, h3, h2, ih]
    · simp [List.filter_cons, List.countP_cons, h3, h2]
      omega
    · simp [List.filter_cons, List.countP_cons, h3, h2]
      omega
    · exact absurd ⟨h3, h2⟩ (isSwapOp_disjoint x)

/-- C4: for a receipt whose status is not 1, the Universal Router
analyser returns a `TradeFail` whose gas fields equal the ones of the
receipt and whose revert reason is whatever the (best-effort,
spec-modelled as `Option`-valued) revert-reason fetcher produced,
including the absent case. -/
theorem universal_failed_tx_trade_fail (env : Env) (r : TxReceipt) (egp : Nat)
    (hst : r.status ≠ 1) (hegp : r.effectiveGasPrice = some egp) :
    analyse_trade_by_receipt env r =
      Except.ok (TradeResult.fail
        { gas_used := r.gasUsed
          effective_gas_price := egp
          revert_reason := env.fetch_transaction_revert_reason }) := by
  simp [analyse_trade_by_receipt, hst, hegp]

/-- C4 witness: a reverted receipt with gas 21000 and price 5, in an
environment whose revert-reason fetch yields nothing, gives a
`TradeFail` with those gas numbers and no reason. -/
theorem universal_failed_tx_trade_fail_witness :
    analyse_trade_by_receipt sampleEnv { status := 0, gasUsed := 21000, effectiveGasPrice := some 5 } =
      Except.ok (TradeResult.fail
        { gas_used := 21000, effective_gas_price := 5, revert_reason := none }) :=
  universal_failed_tx_trade_fail sampleEnv
    { status := 0, gasUsed := 21000, effectiveGasPrice := some 5 } 5 (by decide) rfl

/-- C9: for a chain that is not a key of the static `dex_router` table,
`contains_v3_router` raises `KeyError` instead of returning `False`, and
the dispatcher (once the v2 check has not matched) propagates that
`KeyError` rather than the distinct unknown-router `ValueError`. -/
theorem contains_v3_router_unknown_chain_key_fault
    (chain addr : String) (v2c uc : String → String → Bool)
    (hchain : dex_router.lookup chain = none) :
    contains_v3_router chain addr = Except.error PyError.keyError ∧
    (v2c chain addr = false →
      swap_analyse_trade_by_receipt v2c uc chain addr = Except.error PyError.keyError) := by
  have h1 : contains_v3_router chain addr = Except.error PyError.keyError := by
    simp [contains_v3_router, hchain]
  refine ⟨h1, fun hv2 => ?_⟩
  simp [swap_analyse_trade_by_receipt, hv2, h1]

/-- C9 witness: chain `"ethereum"` is absent from the table, so the
classifier and the dispatcher both fault with `KeyError` there. -/
theorem contains_v3_router_unknown_chain_key_fault_witness :
    contains_v3_router "ethereum" "0xabc" = Except.error PyError.keyError ∧
    swap_analyse_trade_by_receipt (fun _ _ => false) (fun _ _ => false) "ethereum" "0xabc" =
      Except.error PyError.keyError := by
  have h := contains_v3_router_unknown_chain_key_fault "ethereum" "0xabc"
    (fun _ _ => false) (fun _ _ => false) (by decide)
  exact ⟨h.1, h.2 rfl⟩

/-- C6: the dispatcher checks the per-chain tables in the fixed order
v2, then v3, then universal, delegating on the first match;
`contains_v3_router` answers true exactly for the addresses of the
per-chain table (shown for chain `"base"`, the only key); an address
matching no family raises the distinct unknown-router `ValueError`. -/
theorem dispatcher_priority_and_v3_table
    (v2c uc : String → String → Bool) (chain addr : String) :
    (contains_v3_router "base" addr = Except.ok true ↔
      addr = "0x19ceead7105607cd444f5ad10dd51356436095a1") ∧
    (addr ≠ "0x19ceead7105607cd444f5ad10dd51356436095a1" →
      contains_v3_router "base" addr = Except.ok false) ∧
    (v2c chain addr = true →
      swap_analyse_trade_by_receipt v2c uc chain addr = Except.ok DispatchTarget.v2Delegate) ∧
    (v2c chain addr = false → contains_v3_router chain addr = Except.ok true →
      swap_analyse_trade_by_receipt v2c uc chain addr = Except.ok DispatchTarget.v3Delegate) ∧
    (v2c chain addr = false → contains_v3_router chain addr = Except.ok false →
      uc chain addr = true →
      swap_analyse_trade_by_receipt v2c uc chain addr =
        Except.error (PyError.notImplementedError "Universal router not implemented")) ∧
    (v2c chain addr = false → contains_v3_router chain addr = Except.ok false →
      uc chain addr = false →
      swap_analyse_trade_by_receipt v2c uc chain addr =
        Except.error (PyError.valueError ("Unknown router " ++ addr))) := by
  have hred : contains_v3_router "base" addr =
      Except.ok ("0x19ceead7105607cd444f5ad10dd51356436095a1" == addr) := by
    simp [contains_v3_router, dex_router]
  refine ⟨?_, ?_, ?_, ?_, ?_, ?_⟩
  · rw [hred]
    constructor
    · intro h
      have hb : ("0x19ceead7105607cd444f5ad10dd51356436095a1" == addr) = true := by
        injection h
      exact (beq_iff_eq.mp hb).symm
    · intro h
      subst h
      rfl
  · intro hne
    rw [hred]
    have hb : ("0x19ceead7105607cd444f5ad10dd51356436095a1" == addr) = false :=
      beq_eq_false_iff_ne.mpr (fun h => hne h.symm)
    rw [hb]
  · intro hv2
    simp [swap_analyse_trade_by_receipt, hv2]
  · intro hv2 hv3
    simp [swap_analyse_trade_by_receipt, hv2, hv3]
  · intro hv2 hv3 huc
    simp [swap_analyse_trade_by_receipt, hv2, hv3, huc]
  · intro hv2 hv3 huc
    simp [swap_analyse_trade_by_receipt, hv2, hv3, huc]

/-- C6 witness: with empty v2 and universal tables on chain `"base"`,
the table address classifies as v3 and delegates to the v3 analyser,
and an unknown address raises the unknown-router `ValueError`. -/
theorem dispatcher_priority_and_v3_table_witness :
    swap_analyse_trade_by_receipt (fun _ _ => false) (fun _ _ => false) "base"
        "0x19ceead7105607cd444f5ad10dd51356436095a1" =
      Except.ok DispatchTarget.v3Delegate ∧
    swap_analyse_trade_by_receipt (fun _ _ => false) (fun _ _ => false) "base" "0xdead" =
      Except.error (PyError.valueError "Unknown router 0xdead") := by
  have h1 := dispatcher_priority_and_v3_table (fun _ _ => false) (fun _ _ => false) "base"
    "0x19ceead7105607cd444f5ad10dd51356436095a1"
  have h2 := dispatcher_priority_and_v3_table (fun _ _ => false) (fun _ _ => false) "base" "0xdead"
  exact ⟨h1.2.2.2.1 rfl (h1.1.mpr rfl), h2.2.2.2.2.2 rfl (h2.2.1 (by decide)) rfl⟩

/-- C7: the two recognized-but-unimplemented branches raise
`NotImplementedError`, distinct from the unknown-router `ValueError` and
the malformed-swap `ValueError`: the dispatcher for a destination in the
universal-router table (and no higher-priority match), and the Universal
Router analyser for a transaction whose single swap operation is
v2-kind. -/
theorem not_implemented_branches
    (v2c uc : String → String → Bool) (chain addr : String) (env : Env) (r : TxReceipt) :
    (v2c chain addr = false → contains_v3_router chain addr = Except.ok false →
      uc chain addr = true →
      swap_analyse_trade_by_receipt v2c uc chain addr =
        Except.error (PyError.notImplementedError "Universal router not implemented")) ∧
    (r.status = 1 →
      (env.decoded_inputs.filter isV3SwapOp).length = 0 →
      (env.decoded_inputs.filter isV2SwapOp).length = 1 →
      analyse_trade_by_receipt env r =
        Except.error (PyError.notImplementedError "Uniswap V2 trades are not supported yet")) := by
  constructor
  · intro hv2 hv3 huc
    simp [swap_analyse_trade_by_receipt, hv2, hv3, huc]
  · intro hst h3 h2
    simp [analyse_trade_by_receipt, hst, h3, h2]

/-- C7 witness: a universal-table-only destination makes the dispatcher
raise `NotImplementedError`, and a transaction whose only operation is
`V2_SWAP_EXACT_IN` makes the Universal Router analyser raise
`NotImplementedError`. -/
theorem not_implemented_branches_witness :
    swap_analyse_trade_by_receipt (fun _ _ => false) (fun _ _ => true) "base" "0xuniv" =
      Except.error (PyError.notImplementedError "Universal router not implemented") ∧
    analyse_trade_by_receipt
        { sampleEnv with decoded_inputs := [{ fn_name := "V2_SWAP_EXACT_IN", args := [] }] }
        { status := 1, gasUsed := 100, effectiveGasPrice := some 2 } =
      Except.error (PyError.notImplementedError "Uniswap V2 trades are not supported yet") := by
  have h := not_implemented_branches (fun _ _ => false) (fun _ _ => true) "base" "0xuniv"
    { sampleEnv with decoded_inputs := [{ fn_name := "V2_SWAP_EXACT_IN", args := [] }] }
    { status := 1, gasUsed := 100, effectiveGasPrice := some 2 }
  exact ⟨h.1 rfl (by simp [contains_v3_router, dex_router]) rfl, h.2 rfl (by decide) (by decide)⟩

/-- C1: on a non-reverted transaction, the Universal Router analyser
raises the no-swap `ValueError` when the decoded operation list holds
zero swap-kind operations, raises the multiple-swap `ValueError` when it
holds two or more (any mix of v2 and v3 kinds), and produces a success
record only when exactly one swap operation is present. -/
theorem universal_exactly_one_swap_op (env : Env) (r : TxReceipt) :
    (r.status = 1 →
      env.decoded_inputs.countP (fun x => isV3SwapOp x || isV2SwapOp x) = 0 →
      analyse_trade_by_receipt env r =
        Except.error (PyError.valueError "No swap operation detected in the transaction")) ∧
    (r.status = 1 →
      2 ≤ env.decoded_inputs.countP (fun x => isV3SwapOp x || isV2SwapOp x) →
      analyse_trade_by_receipt env r =
        Except.error (PyError.valueError "Multiple swap operations detected in the transaction")) ∧
    (∀ s : TradeSuccess,
      analyse_trade_by_receipt env r = Except.ok (TradeResult.success s) →
      env.decoded_inputs.countP (fun x => isV3SwapOp x || isV2SwapOp x) = 1) := by
  have hsum := filter_swap_ops_length env.decoded_inputs
  refine ⟨?_, ?_, ?_⟩
  · intro hst hc
    rw [hc] at hsum
    have h3 : (env.decoded_inputs.filter isV3SwapOp).length = 0 := by omega
    have h2 : (env.decoded_inputs.filter isV2SwapOp).length = 0 := by omega
    have hst' : ¬(r.status ≠ 1) := fun h => h hst
    simp only [analyse_trade_by_receipt]
    rw [if_neg hst', if_pos ⟨h3, h2⟩]
  · intro hst hc
    rw [← hsum] at hc
    have h1 : ¬((env.decoded_inputs.filter isV3SwapOp).length = 0 ∧
        (env.decoded_inputs.filter isV2SwapOp).length = 0) := by omega
    have h2 : (env.decoded_inputs.filter isV3SwapOp).length +
        (env.decoded_inputs.filter isV2SwapOp).length > 1 := by omega
    have hst' : ¬(r.status ≠ 1) := fun h => h hst
    simp only [analyse_trade_by_receipt]
    rw [if_neg hst', if_neg h1, if_pos h2]
  · intro s hres
    simp only [analyse_trade_by_receipt] at hres
    by_cases hst : r.status = 1
    · have hst' : ¬(r.status ≠ 1) := fun h => h hst
      rw [if_neg hst'] at hres
      by_cases h1 : (env.decoded_inputs.filter isV3SwapOp).length = 0 ∧
          (env.decoded_inputs.filter isV2SwapOp).length = 0
      · rw [if_pos h1] at hres
        exact absurd hres (by simp)
      · rw [if_neg h1] at hres
        by_cases h2 : (env.decoded_inputs.filter isV3SwapOp).length +
            (env.decoded_inputs.filter isV2SwapOp).length > 1
        · rw [if_pos h2] at hres
          exact absurd hres (by simp)
        · omega
    · rw [if_pos hst] at hres
      exact absurd hres (by simp)

/-- C1 witness: an empty operation list raises the no-swap `ValueError`
and a two-swap list raises the multiple-swap `ValueError`. -/
theorem universal_exactly_one_swap_op_witness :
    analyse_trade_by_receipt sampleEnv { status := 1, gasUsed := 100, effectiveGasPrice := some 2 } =
      Except.error (PyError.valueError "No swap operation detected in the transaction") ∧
    analyse_trade_by_receipt
        { sampleEnv with decoded_inputs :=
            [{ fn_name := "V3_SWAP_EXACT_IN", args := [] },
             { fn_name := "V2_SWAP_EXACT_OUT", args := [] }] }
        { status := 1, gasUsed := 100, effectiveGasPrice := some 2 } =
      Except.error (PyError.valueError "Multiple swap operations detected in the transaction") := by
  have h1 := universal_exactly_one_swap_op sampleEnv
    { status := 1, gasUsed := 100, effectiveGasPrice := some 2 }
  have h2 := universal_exactly_one_swap_op
    { sampleEnv with decoded_inputs :=
        [{ fn_name := "V3_SWAP_EXACT_IN", args := [] },
         { fn_name := "V2_SWAP_EXACT_OUT", args := [] }] }
    { status := 1, gasUsed := 100, effectiveGasPrice := some 2 }
  exact ⟨h1.1 rfl (by decide), h2.2.1 rfl (by decide)⟩

/-- C2: `get_v3_by_event` raises the unsupported-swap-type
`AssertionError` whenever the signed pair `amount0`, `amount1` is not
exactly one strictly positive and one strictly negative value; when the
invariant holds (and the route path is non-empty) it succeeds, taking
the positive amount as input leg and the absolute value of the negative
amount as output leg of the success record. -/
theorem v3_event_sign_invariant (env : Env) (egp gu : Nat) (path : List String)
    (aom : Int) (event : EventData) (a0 a1 t : Int)
    (h0 : event.args.lookup "amount0" = some a0)
    (h1 : event.args.lookup "amount1" = some a1)
    (ht : event.args.lookup "tick" = some t) :
    (¬((0 < a0 ∧ a1 < 0) ∨ (a0 < 0 ∧ 0 < a1)) →
      get_v3_by_event env egp gu path aom event =
        Except.error (PyError.assertionError "Unsupported swap type")) ∧
    (((0 < a0 ∧ a1 < 0) ∨ (a0 < 0 ∧ 0 < a1)) →
      ∀ p0 pl : String, path.head? = some p0 → path.getLast? = some pl →
      ∃ s : TradeSuccess,
        get_v3_by_event env egp gu path aom event = Except.ok (TradeResult.success s) ∧
        s.amount_in = max a0 a1 ∧ 0 < s.amount_in ∧
        s.amount_out = |min a0 a1| ∧ min a0 a1 < 0) := by
  simp only [get_v3_by_event, dictGet, h0, h1, ht, bind, Except.bind]
  constructor
  · intro hinv
    rw [if_neg hinv]
  · intro hinv p0 pl hp0 hpl
    rw [if_pos hinv]
    have hmin : min a0 a1 < 0 := by omega
    rcases hinv with ⟨ha0, ha1⟩ | ⟨ha0, ha1⟩
    · have hn : ¬(a0 < 0) := by omega
      rw [if_neg hn, if_pos ha1]
      simp only [pyHead, pyLast, hp0, hpl, if_pos ha0]
      refine ⟨_, rfl, ?_, ?_, ?_, hmin⟩
      · show a0 = max a0 a1
        omega
      · show (0 : Int) < a0
        exact ha0
      · show |a1| = |min a0 a1|
        have : min a0 a1 = a1 := by omega
        rw [this]
    · rw [if_pos ha0, if_pos ha0]
      simp only [pyHead, pyLast, hp0, hpl]
      have hn : ¬(a0 > 0) := by omega
      rw [if_neg hn]
      refine ⟨_, rfl, ?_, ?_, ?_, hmin⟩
      · show a1 = max a0 a1
        omega
      · show (0 : Int) < a1
        exact ha1
      · show |a0| = |min a0 a1|
        have : min a0 a1 = a0 := by omega
        rw [this]

/-- C2 witness: a both-positive pair `(5, 7)` raises the assertion, and
a `(5, -3)` pair yields a success record with input `5` and output
`3`. -/
theorem v3_event_sign_invariant_witness :
    get_v3_by_event sampleEnv 2 9 ["0xA", "0xB"] 1
        { event := "Swap", address := "P", args := [("amount0", 5), ("amount1", 7), ("tick", 0)] } =
      Except.error (PyError.assertionError "Unsupported swap type") ∧
    (∃ s : TradeSuccess,
      get_v3_by_event sampleEnv 2 9 ["0xA", "0xB"] 1
          { event := "Swap", address := "P", args := [("amount0", 5), ("amount1", -3), ("tick", 0)] } =
        Except.ok (TradeResult.success s) ∧
      s.amount_in = max 5 (-3) ∧ 0 < s.amount_in ∧
      s.amount_out = |min 5 (-3)| ∧ min 5 (-3) < 0) := by
  constructor
  · exact (v3_event_sign_invariant sampleEnv 2 9 ["0xA", "0xB"] 1
      { event := "Swap", address := "P", args := [("amount0", 5), ("amount1", 7), ("tick", 0)] }
      5 7 0 rfl rfl rfl).1 (by omega)
  · exact (v3_event_sign_invariant sampleEnv 2 9 ["0xA", "0xB"] 1
      { event := "Swap", address := "P", args := [("amount0", 5), ("amount1", -3), ("tick", 0)] }
      5 (-3) 0 rfl rfl rfl).2 (by omega) "0xA" "0xB" rfl rfl

/-- C8: on the v3 success path the `lp_fee_paid` field equals
`amount_in * fee / 10 ^ in_token_decimals` (the float cast of the
Python code is embedded as the exact rational value), and it is
non-negative whenever the pool fee rate is, the input amount being
strictly positive by the sign invariant. -/
theorem v3_lp_fee_formula (env : Env) (egp gu : Nat) (path : List String)
    (aom : Int) (event : EventData) (a0 a1 t : Int) (p0 pl : String)
    (h0 : event.args.lookup "amount0" = some a0)
    (h1 : event.args.lookup "amount1" = some a1)
    (ht : event.args.lookup "tick" = some t)
    (hinv : (0 < a0 ∧ a1 < 0) ∨ (a0 < 0 ∧ 0 < a1))
    (hp0 : path.head? = some p0) (hpl : path.getLast? = some pl) :
    ∃ s : TradeSuccess,
      get_v3_by_event env egp gu path aom event = Except.ok (TradeResult.success s) ∧
      s.lp_fee_paid = (s.amount_in : ℚ) * (env.fetch_pool_details event.address).fee /
        10 ^ s.in_token_decimals ∧
      0 < s.amount_in ∧
      (0 ≤ (env.fetch_pool_details event.address).fee → 0 ≤ s.lp_fee_paid) := by
  simp only [get_v3_by_event, dictGet, h0, h1, ht, bind, Except.bind]
  rw [if_pos hinv]
  rcases hinv with ⟨ha0, ha1⟩ | ⟨ha0, ha1⟩
  · have hn : ¬(a0 < 0) := by omega
    rw [if_neg hn, if_pos ha1]
    simp only [pyHead, pyLast, hp0, hpl, if_pos ha0]
    refine ⟨_, rfl, rfl, ha0, fun hfee => ?_⟩
    exact div_nonneg (mul_nonneg (by exact_mod_cast ha0.le) hfee) (by positivity)
  · rw [if_pos ha0, if_pos ha0]
    simp only [pyHead, pyLast, hp0, hpl]
    have hn : ¬(a0 > 0) := by omega
    rw [if_neg hn]
    refine ⟨_, rfl, rfl, ha1, fun hfee => ?_⟩
    exact div_nonneg (mul_nonneg (by exact_mod_cast ha1.le) hfee) (by positivity)

/-- C8 witness: on the `(5, -3)` event with the zero-fee sample pool the
success record carries `lp_fee_paid = 5 * 0 / 10 ^ 18`, which is
non-negative. -/
theorem v3_lp_fee_formula_witness :
    ∃ s : TradeSuccess,
      get_v3_by_event sampleEnv 2 9 ["0xA", "0xB"] 1
          { event := "Swap", address := "P", args := [("amount0", 5), ("amount1", -3), ("tick", 0)] } =
        Except.ok (TradeResult.success s) ∧
      s.lp_fee_paid = (s.amount_in : ℚ) * (sampleEnv.fetch_pool_details "P").fee /
        10 ^ s.in_token_decimals ∧
      0 < s.amount_in ∧
      (0 ≤ (sampleEnv.fetch_pool_details "P").fee → 0 ≤ s.lp_fee_paid) :=
  v3_lp_fee_formula sampleEnv 2 9 ["0xA", "0xB"] 1
    { event := "Swap", address := "P", args := [("amount0", 5), ("amount1", -3), ("tick", 0)] }
    5 (-3) 0 "0xA" "0xB" rfl rfl rfl (by omega) rfl rfl

/-- C3: whenever the filtered Swap-named event list is non-empty, the
Universal Router analyser builds its result from exactly the last
Swap-named event of the ordered event list, ignoring all earlier events
(shown on the canonical single-v3-operation success path). -/
theorem universal_selects_last_swap_event (env : Env) (r : TxReceipt) (op : UROp)
    (raw aom : Int) (lastPair : EventData × List (String × Int))
    (hst : r.status = 1)
    (hops : env.decoded_inputs = [op])
    (hv3 : isV3SwapOp op = true)
    (hpath : op.args.lookup "path" = some raw)
    (haom : op.args.lookup "amountOutMin" = some aom)
    (hlast : (env.tx_events.filter (fun t => t.1.event == "Swap")).getLast? = some lastPair) :
    analyse_trade_by_receipt env r =
      get_v3_by_event env (r.effectiveGasPrice.getD 0) r.gasUsed
        (env.v3_path op.fn_name raw) aom lastPair.1 := by
  have hv2 : isV2SwapOp op = false := by
    cases h : isV2SwapOp op
    · rfl
    · exact absurd ⟨hv3, h⟩ (isSwapOp_disjoint op)
  have hst' : ¬(r.status ≠ 1) := fun h => h hst
  have hne : env.tx_events ≠ [] := by
    intro h
    rw [h] at hlast
    simp at hlast
  have hlen : env.tx_events.length > 0 := List.length_pos.mpr hne
  have e3 : List.filter isV3SwapOp [op] = [op] := by simp [hv3]
  have e2 : List.filter isV2SwapOp [op] = [] := by simp [hv2]
  simp only [analyse_trade_by_receipt, hops, e3, e2]
  rw [if_neg hst', if_neg (by simp), if_neg (by simp), if_neg (by simp)]
  simp only [pyHead, List.head?, dictGet, hpath, haom, bind, Except.bind]
  rw [if_pos hlen]
  simp only [pyLast, hlast, pyTupleLen]
  rw [if_pos (by omega : (2 : Nat) > 0)]

/-- C3 witness: with one Transfer event followed by two Swap events, the
analyser builds its result from the second Swap event. -/
theorem universal_selects_last_swap_event_witness :
    analyse_trade_by_receipt
        { sampleEnv with
            decoded_inputs := [{ fn_name := "V3_SWAP_EXACT_IN"
                                 args := [("path", 7), ("amountOutMin", 100)] }]
            v3_path := fun _ _ => ["0xA", "0xB"]
            tx_events := [({ event := "Transfer", address := "P0", args := [] }, []),
                          ({ event := "Swap", address := "P1", args := [("amount0", 1)] }, []),
                          ({ event := "Swap", address := "P2"
                             args := [("amount0", 5), ("amount1", -3), ("tick", 0)] }, [])] }
        { status := 1, gasUsed := 9, effectiveGasPrice := some 2 } =
      get_v3_by_event
        { sampleEnv with
            decoded_inputs := [{ fn_name := "V3_SWAP_EXACT_IN"
                                 args := [("path", 7), ("amountOutMin", 100)] }]
            v3_path := fun _ _ => ["0xA", "0xB"]
            tx_events := [({ event := "Transfer", address := "P0", args := [] }, []),
                          ({ event := "Swap", address := "P1", args := [("amount0", 1)] }, []),
                          ({ event := "Swap", address := "P2"
                             args := [("amount0", 5), ("amount1", -3), ("tick", 0)] }, [])] }
        2 9 ["0xA", "0xB"] 100
        { event := "Swap", address := "P2"
          args := [("amount0", 5), ("amount1", -3), ("tick", 0)] } :=
  universal_selects_last_swap_event _ _
    { fn_name := "V3_SWAP_EXACT_IN", args := [("path", 7), ("amountOutMin", 100)] }
    7 100
    ({ event := "Swap", address := "P2"
       args := [("amount0", 5), ("amount1", -3), ("tick", 0)] }, [])
    rfl rfl rfl rfl rfl rfl

/-- C10: on the success path, a non-empty event list containing no
Swap-named event makes the analyser fault with `IndexError` from the
`[-1]` subscript on the empty filtered list rather than raise a
structured no-swap-events error, and the length assertion placed after
the subscript checks the selected 2-tuple, whose Python length is always
2, so it can never detect the empty-filter case. -/
theorem universal_no_swap_event_index_fault (env : Env) (r : TxReceipt) (op : UROp)
    (raw aom : Int)
    (hst : r.status = 1)
    (hops : env.decoded_inputs = [op])
    (hv3 : isV3SwapOp op = true)
    (hpath : op.args.lookup "path" = some raw)
    (haom : op.args.lookup "amountOutMin" = some aom)
    (hne : env.tx_events ≠ [])
    (hnoswap : ∀ p ∈ env.tx_events, p.1.event ≠ "Swap") :
    analyse_trade_by_receipt env r = Except.error PyError.indexError ∧
    (∀ q : EventData × List (String × Int), 0 < pyTupleLen q) := by
  have hv2 : isV2SwapOp op = false := by
    cases h : isV2SwapOp op
    · rfl
    · exact absurd ⟨hv3, h⟩ (isSwapOp_disjoint op)
  have hst' : ¬(r.status ≠ 1) := fun h => h hst
  have hlen : env.tx_events.length > 0 := List.length_pos.mpr hne
  have hfe : env.tx_events.filter (fun t => t.1.event == "Swap") = [] := by
    rw [List.filter_eq_nil_iff]
    intro p hp
    simp [hnoswap p hp]
  have e3 : List.filter isV3SwapOp [op] = [op] := by simp [hv3]
  have e2 : List.filter isV2SwapOp [op] = [] := by simp [hv2]
  constructor
  · simp only [analyse_trade_by_receipt, hops, e3, e2]
    rw [if_neg hst', if_neg (by simp), if_neg (by simp), if_neg (by simp)]
    simp only [pyHead, List.head?, dictGet, hpath, haom, bind, Except.bind]
    rw [if_pos hlen]
    simp only [hfe, pyLast, List.getLast?]
  · intro q
    simp [pyTupleLen]

/-- C10 witness: one Transfer-only event list makes the analyser fault
with `IndexError`. -/
theorem universal_no_swap_event_index_fault_witness :
    analyse_trade_by_receipt
        { sampleEnv with
            decoded_inputs := [{ fn_name := "V3_SWAP_EXACT_IN"
                                 args := [("path", 7), ("amountOutMin", 100)] }]
            tx_events := [({ event := "Transfer", address := "P0", args := [] }, [])] }
        { status := 1, gasUsed := 9, effectiveGasPrice := some 2 } =
      Except.error PyError.indexError :=
  (universal_no_swap_event_index_fault _ _
    { fn_name := "V3_SWAP_EXACT_IN", args := [("path", 7), ("amountOutMin", 100)] }
    7 100 rfl rfl rfl rfl rfl (by decide) (by decide)).1

/-- A concrete environment whose decoded operation list places a
non-swap `WRAP_ETH` command first and the single v3 swap operation
second; the swap operation carries both the `path` and the
`amountOutMin` arguments, the `WRAP_ETH` command carries neither. -/
def c5Env : Env :=
  { sampleEnv with
      decoded_inputs := [{ fn_name := "WRAP_ETH", args := [("recipient", 2), ("amountMin", 0)] },
                         { fn_name := "V3_SWAP_EXACT_IN"
                           args := [("path", 7), ("amountOutMin", 100)] }] }

/-- C5: the analyser reads `path` and `amountOutMin` from
`decoded_trx_input[0]`, the first entry of the whole decoded operation
list, not from the detected v3 swap operation; when the single v3 swap
operation is preceded by a non-swap command the dictionary subscript on
the first command faults with `KeyError` even though the swap operation
itself carries both arguments. -/
theorem universal_path_read_from_first_op :
    analyse_trade_by_receipt c5Env { status := 1, gasUsed := 9, effectiveGasPrice := some 2 } =
      Except.error PyError.keyError := rfl

end EthDefi
